import Mathlib

/-!
Verification of the VisualEyes PC companion server
(`src/exam_companion/server.py`) against its natural-language
specification.

The server's receive loop (`handle_client`) decodes each inbound
websocket message with `json.loads`, updates the module-global
`last_activity` timestamp, and dispatches on the decoded record's
`type` field, delegating side effects to `pyautogui` / `mss`
(the Input Bridge) and sending a reply frame only for `screenshot`.
A background thread (`start_inactivity_monitor`) polls every 60 s and
calls `os._exit(0)` when the mode is `"temporary"` and more than
7200 s elapsed since `last_activity`.  `load_mode` / `save_mode`
persist the operating mode in a JSON config file.

We embed the decoded JSON values as `PyVal` (Python's `json.loads`
maps JSON null to `None`, objects to `dict`, etc.), the dispatcher as
a pure function producing a trace of Input-Bridge events and reply
frames, and the receive loop as explicit state passing of the
`last_activity` value.  External capabilities are parameters: the
display-capture-and-JPEG-compress pipeline is an abstract function
`jpeg : Nat → List Nat` giving the compressed bytes produced by
`img.save(buf, format="JPEG", quality=q)` for the grabbed screen.
`base64.b64encode` is implemented faithfully below.
-/

namespace VisualEyes

/-- A Python value as produced by `json.loads`: `none` is Python `None`
(JSON `null`), and a JSON object becomes a `dict` of key/value pairs. -/
inductive PyVal where
  | none
  | bool (b : Bool)
  | int (n : Int)
  | str (s : String)
  | list (xs : List PyVal)
  | dict (xs : List (String × PyVal))

/-- Python truthiness (`if key:`): `None`, `False`, `0`, `""`, `[]`, `{}`
are falsy, everything else truthy. -/
def PyVal.truthy : PyVal → Bool
  | PyVal.none => false
  | PyVal.bool b => b
  | PyVal.int n => n != 0
  | PyVal.str s => s != ""
  | PyVal.list xs => !xs.isEmpty
  | PyVal.dict xs => !xs.isEmpty

/-- `v is None` in Python. -/
def PyVal.isNone : PyVal → Bool
  | PyVal.none => true
  | _ => false

/-- Whether the value is a JSON object (a Python `dict`). -/
def PyVal.isDict : PyVal → Bool
  | PyVal.dict _ => true
  | _ => false

/-- Python `==` between a value and a string literal: only equal strings
compare equal (`5 == "click"` is `False`). -/
def PyVal.eqStr : PyVal → String → Bool
  | PyVal.str s, t => s == t
  | _, _ => false

/-- Look up a key in the association list of a JSON object.  When a key
occurs several times the LAST occurrence wins, as in Python's JSON
decoder. -/
def lookupKey : List (String × PyVal) → String → Option PyVal
  | [], _ => Option.none
  | (k, v) :: rest, key =>
    match lookupKey rest key with
    | Option.none => if k == key then some v else Option.none
    | some w => some w

/-- Python `d.get(k)`: the stored value, or `None` when the key is absent. -/
def dictGet (d : List (String × PyVal)) (k : String) : PyVal :=
  (lookupKey d k).getD PyVal.none

/-- Python `d.get(k, dflt)`: the stored value (even if it is `None`), or
`dflt` when the key is absent. -/
def dictGetD (d : List (String × PyVal)) (k : String) (dflt : PyVal) : PyVal :=
  (lookupKey d k).getD dflt

/-- Whether the key occurs in the JSON object at all. -/
def hasKey (d : List (String × PyVal)) (k : String) : Bool :=
  (lookupKey d k).isSome

/-- The base64 alphabet used by `base64.b64encode`. -/
def base64Table : List Char :=
  "ABCDEFGHIJKLMNOPQRSTUVWXYZabcdefghijklmnopqrstuvwxyz0123456789+/".toList

/-- Character for a 6-bit group. -/
def b64char (n : Nat) : Char := base64Table.getD n 'A'

/-- Standard base64 of a byte list, three bytes at a time, with `=`
padding; faithful to `base64.b64encode`. -/
def base64Chunks : List Nat → List Char
  | [] => []
  | [a] =>
    let a := a % 256
    [b64char (a / 4), b64char (a % 4 * 16), '=', '=']
  | [a, b] =>
    let a := a % 256
    let b := b % 256
    [b64char (a / 4), b64char (a % 4 * 16 + b / 16), b64char (b % 16 * 4), '=']
  | a :: b :: c :: rest =>
    let a := a % 256
    let b := b % 256
    let c := c % 256
    b64char (a / 4) :: b64char (a % 4 * 16 + b / 16) ::
      b64char (b % 16 * 4 + c / 64) :: b64char (c % 64) :: base64Chunks rest

def base64Encode (bs : List Nat) : String := String.mk (base64Chunks bs)

example : base64Encode [77, 97, 110] = "TWFu" := rfl
example : base64Encode [77, 97] = "TWE=" := rfl
example : base64Encode [77] = "TQ==" := rfl
example : base64Encode [] = "" := rfl

/-- One observable effect of processing a frame: an Input-Bridge call
(`pyautogui.click` / `moveTo` / `typewrite` / `press`, or the display
grab-and-compress at the given JPEG quality) or an outbound reply
frame. -/
inductive Event where
  | click (x y : PyVal)
  | moveTo (x y : PyVal)
  | typewrite (text : PyVal)
  | press (key : PyVal)
  | captureDisplay (quality : Nat)
  | sendReply (frame : PyVal)

/-- The reply record built at `server.py:135`:
`{"type": "screenshot", "data": base64(jpeg-quality-60 capture)}`. -/
def screenshotReply (jpeg : Nat → List Nat) : PyVal :=
  PyVal.dict [("type", PyVal.str "screenshot"),
              ("data", PyVal.str (base64Encode (jpeg 60)))]

/-- The command dispatcher of `handle_client` (`server.py:105-135`),
given the decoded JSON object `d` and the abstract capture pipeline
`jpeg` (bytes of the grabbed display compressed at a given quality).
Returns the ordered trace of effects for this frame. -/
def dispatchFrame (jpeg : Nat → List Nat) (d : List (String × PyVal)) : List Event :=
  let cmd := dictGet d "type"
  if cmd.eqStr "click" then
    let x := dictGet d "x"
    let y := dictGet d "y"
    if x.isNone || y.isNone then [] else [Event.click x y]
  else if cmd.eqStr "move" then
    let x := dictGet d "x"
    let y := dictGet d "y"
    if x.isNone || y.isNone then [] else [Event.moveTo x y]
  else if cmd.eqStr "type_text" then
    [Event.typewrite (dictGetD d "text" (PyVal.str ""))]
  else if cmd.eqStr "key" then
    let k := dictGet d "key"
    if k.truthy then [Event.press k] else []
  else if cmd.eqStr "screenshot" then
    [Event.captureDisplay 60, Event.sendReply (screenshotReply jpeg)]
  else []

/-- Result of handling one decoded value: the emitted events, and
whether an uncaught exception escaped the loop body (which ends the
`async for` and closes the connection). -/
structure StepResult where
  events : List Event
  crash : Bool

/-- Handling a successfully decoded value (`server.py:105` onward).
`data.get("type")` on a non-`dict` value raises `AttributeError`,
which nothing in `handle_client` catches. -/
def handleDecoded (jpeg : Nat → List Nat) : PyVal → StepResult
  | PyVal.dict d => ⟨dispatchFrame jpeg d, false⟩
  | _ => ⟨[], true⟩

/-- Handling one raw inbound message, given its decode result:
`Option.none` models a `json.JSONDecodeError`, which is caught and the
frame silently skipped (`server.py:99-102`). -/
def handleMessage (jpeg : Nat → List Nat) : Option PyVal → StepResult
  | Option.none => ⟨[], false⟩
  | some v => handleDecoded jpeg v

/-- The replies among a trace of events. -/
def repliesOf (evs : List Event) : List PyVal :=
  evs.filterMap fun e =>
    match e with
    | Event.sendReply v => some v
    | _ => Option.none

/-- Whether a decode result is a JSON object whose `type` field equals
`"screenshot"` (the condition under which `server.py:128` fires). -/
def isScreenshotFrame : Option PyVal → Bool
  | some (PyVal.dict d) => (dictGet d "type").eqStr "screenshot"
  | _ => false

/-- The `type` values recognised by the dispatcher. -/
def isKnownType (cmd : PyVal) : Bool :=
  cmd.eqStr "click" || cmd.eqStr "move" || cmd.eqStr "type_text" ||
    cmd.eqStr "key" || cmd.eqStr "screenshot"

/-- The receive loop of `handle_client` (`server.py:98-135`) over a
finite list of inbound messages, each tagged with the wall-clock time
at which `time.time()` would be read for it.  State passed explicitly:
`la` is the module-global `last_activity`.  A `json.JSONDecodeError`
(`Option.none`) skips the frame WITHOUT touching `last_activity`; a
successful decode first sets `last_activity` to the frame's time
(`server.py:104`) and then dispatches; an uncaught exception
(non-`dict` decode) ends the loop, leaving the remaining messages
unprocessed.  Returns the final `last_activity` and the event trace. -/
def runLoop (jpeg : Nat → List Nat) :
    List (Nat × Option PyVal) → Nat → Nat × List Event
  | [], la => (la, [])
  | (t, msg) :: rest, la =>
    match msg with
    | Option.none => runLoop jpeg rest la
    | some v =>
      let r := handleDecoded jpeg v
      if r.crash then (t, r.events)
      else
        let u := runLoop jpeg rest t
        (u.1, r.events ++ u.2)

/-- One whole connection: `handle_client` first overwrites
`last_activity` with the connection-establishment time
(`server.py:97`) — the previous value `la0` is discarded — and then
runs the receive loop. -/
def runConn (jpeg : Nat → List Nat) (la0 connectTime : Nat)
    (msgs : List (Nat × Option PyVal)) : Nat × List Event :=
  runLoop jpeg msgs connectTime

/-- One poll of the inactivity monitor (`server.py:152-154`): exits the
process exactly when the mode is `"temporary"` and strictly more than
7200 seconds have elapsed since `last_activity`.  Times are integers so
the subtraction is the Python one. -/
def monitorStep (mode : String) (now la : Int) : Bool :=
  if mode == "temporary" then
    if now - la > 7200 then true else false
  else false

/-- Whether the monitor loop ever exits over a finite sequence of polls,
each observing the current time and `last_activity`. -/
def monitorExits (mode : String) (samples : List (Int × Int)) : Bool :=
  samples.any fun p => monitorStep mode p.1 p.2

/-- The polling interval of the monitor thread (`time.sleep(60)`). -/
def pollInterval : Nat := 60

/-- The idle threshold in seconds (`server.py:153`). -/
def idleThreshold : Nat := 7200

/-- The persisted configuration file as the Mode Store sees it: absent,
present but unreadable (opening or JSON-decoding it raises), or present
with a decoded JSON value. -/
inductive FileState where
  | absent
  | unreadable
  | stored (v : PyVal)

/-- `load_mode` (`server.py:42-51`).  It first calls
`_get_config_path()` OUTSIDE its `try` block (`server.py:43`), and that
helper runs `os.makedirs(path, exist_ok=True)` (`server.py:38`), which
can raise (permission denied, a file occupying the directory path);
such an exception propagates out of `load_mode` — `mkdirOk = false`
models it as `Except.error ()`.  With the path available: `None` when
the file does not exist; any exception while reading or decoding is
swallowed into `None` (this also covers a stored non-object, where
`data.get` raises `AttributeError` inside the `try`); otherwise
`data.get("mode")`. -/
def load_mode : Bool → FileState → Except Unit PyVal
  | false, _ => Except.error ()
  | true, FileState.absent => Except.ok PyVal.none
  | true, FileState.unreadable => Except.ok PyVal.none
  | true, FileState.stored v =>
    Except.ok
      (match v with
       | PyVal.dict d => dictGet d "mode"
       | _ => PyVal.none)

/-- `save_mode` (`server.py:54-60`).  It too calls `_get_config_path()`
before its `try` (`server.py:55`), so a directory-creation failure
propagates out of `save_mode` (`mkdirOk = false`).  With the path
available: on success the file now holds `{"mode": value}`; any
exception while writing is swallowed and the store is left as it was
(`writeOk = false`). -/
def save_mode : Bool → Bool → FileState → PyVal → Except Unit FileState
  | false, _, _, _ => Except.error ()
  | true, writeOk, fs, value =>
    Except.ok
      (if writeOk then FileState.stored (PyVal.dict [("mode", value)]) else fs)

/-- `Modelled from the spec:` the amended ActivityTimestamp law, stated
independently of the loop: the timestamp after a connection equals the
time of the most recent successfully decoded frame that was processed
(the loop stops after a non-object decode), or the
connection-establishment time when no frame was decoded. -/
def activitySpec (c : Nat) : List (Nat × Option PyVal) → Nat
  | [] => c
  | (t, msg) :: rest =>
    match msg with
    | Option.none => activitySpec c rest
    | some v => if v.isDict then activitySpec t rest else t

/-! ## Helper lemmas -/

theorem eqStr_ne_of_eqStr (v : PyVal) (a b : String) (hab : a ≠ b)
    (h : v.eqStr a = true) : v.eqStr b = false := by
  cases v <;> simp_all [PyVal.eqStr]

theorem handleDecoded_crash (jpeg : Nat → List Nat) (v : PyVal) :
    (handleDecoded jpeg v).crash = !v.isDict := by
  cases v <;> rfl

/-! ## C1: click/move coordinate handling -/

/-- **C1, counterexample.**  The claim says an Input-Bridge call is made
whenever both the `x` and `y` fields are PRESENT.  But `json.loads`
maps a JSON `null` to Python `None`, and `server.py:110` tests
`x is not None`: the frame `{"type": "click", "x": null, "y": 2}` has
both fields present yet produces no Input-Bridge call. -/
theorem C1_counterexample :
    hasKey [("type", PyVal.str "click"), ("x", PyVal.none), ("y", PyVal.int 2)] "x" = true ∧
    hasKey [("type", PyVal.str "click"), ("x", PyVal.none), ("y", PyVal.int 2)] "y" = true ∧
    dispatchFrame (fun _ => [])
      [("type", PyVal.str "click"), ("x", PyVal.none), ("y", PyVal.int 2)] = [] :=
  ⟨rfl, rfl, rfl⟩

/-- **C1 (amended).**  For a decoded frame of type `"click"` (resp.
`"move"`): if both `x` and `y` are present with non-null values, the
Input Bridge receives exactly one pointer-click (resp. pointer-move)
call with exactly those values; if either field is absent or null,
no Input-Bridge call is made for that frame. -/
theorem C1_theorem (jpeg : Nat → List Nat) (d : List (String × PyVal)) :
    (dictGet d "type" = PyVal.str "click" →
      dispatchFrame jpeg d =
        if (dictGet d "x").isNone || (dictGet d "y").isNone then []
        else [Event.click (dictGet d "x") (dictGet d "y")]) ∧
    (dictGet d "type" = PyVal.str "move" →
      dispatchFrame jpeg d =
        if (dictGet d "x").isNone || (dictGet d "y").isNone then []
        else [Event.moveTo (dictGet d "x") (dictGet d "y")]) := by
  constructor <;> intro h <;> unfold dispatchFrame <;> rw [h] <;>
    simp [PyVal.eqStr]

/-- **C1, witness.** -/
theorem C1_witness :
    dispatchFrame (fun _ => [])
        [("type", PyVal.str "click"), ("x", PyVal.int 100), ("y", PyVal.int 200)] =
      [Event.click (PyVal.int 100) (PyVal.int 200)] ∧
    dispatchFrame (fun _ => [])
        [("type", PyVal.str "move"), ("x", PyVal.int 3), ("y", PyVal.int 4)] =
      [Event.moveTo (PyVal.int 3) (PyVal.int 4)] :=
  ⟨(C1_theorem (fun _ => [])
      [("type", PyVal.str "click"), ("x", PyVal.int 100), ("y", PyVal.int 200)]).1 rfl,
   (C1_theorem (fun _ => [])
      [("type", PyVal.str "move"), ("x", PyVal.int 3), ("y", PyVal.int 4)]).2 rfl⟩

/-! ## C9: coordinate values are not type-checked -/

/-- **C9, counterexample.**  The claim says the dispatcher validates
ONLY the presence of `x` and `y` and forwards any non-absent values.
A present-but-null `x` (JSON `null`) is non-absent, yet the frame
produces no call: presence alone is not what is validated. -/
theorem C9_counterexample :
    hasKey [("type", PyVal.str "click"), ("x", PyVal.none), ("y", PyVal.str "abc")] "x" = true ∧
    dispatchFrame (fun _ => [])
      [("type", PyVal.str "click"), ("x", PyVal.none), ("y", PyVal.str "abc")] = [] :=
  ⟨rfl, rfl⟩

/-- **C9 (amended).**  For a decoded `"click"`/`"move"` frame the
dispatcher validates only that `x` and `y` are non-null; any non-null
values — including non-numeric ones such as strings — are forwarded
verbatim to the Input-Bridge call. -/
theorem C9_theorem (jpeg : Nat → List Nat) (d : List (String × PyVal)) (x y : PyVal)
    (hx : dictGet d "x" = x) (hy : dictGet d "y" = y)
    (hxn : x.isNone = false) (hyn : y.isNone = false) :
    (dictGet d "type" = PyVal.str "click" →
      dispatchFrame jpeg d = [Event.click x y]) ∧
    (dictGet d "type" = PyVal.str "move" →
      dispatchFrame jpeg d = [Event.moveTo x y]) := by
  constructor <;> intro h <;> unfold dispatchFrame <;> rw [h, hx, hy] <;>
    simp [PyVal.eqStr, hxn, hyn]

/-- **C9, witness**: string coordinates are forwarded verbatim. -/
theorem C9_witness :
    dispatchFrame (fun _ => [])
        [("type", PyVal.str "click"), ("x", PyVal.str "12"), ("y", PyVal.str "34")] =
      [Event.click (PyVal.str "12") (PyVal.str "34")] :=
  (C9_theorem (fun _ => [])
      [("type", PyVal.str "click"), ("x", PyVal.str "12"), ("y", PyVal.str "34")]
      (PyVal.str "12") (PyVal.str "34") rfl rfl rfl rfl).1 rfl

/-! ## C2: screenshot replies -/

theorem repliesOf_dispatch (jpeg : Nat → List Nat) (d : List (String × PyVal)) :
    repliesOf (dispatchFrame jpeg d) =
      if (dictGet d "type").eqStr "screenshot" then [screenshotReply jpeg] else [] := by
  unfold dispatchFrame
  by_cases h1 : (dictGet d "type").eqStr "click" = true
  · rw [eqStr_ne_of_eqStr _ _ _ (by decide : "click" ≠ "screenshot") h1]
    simp only [h1, if_true, Bool.false_eq_true, if_false]
    split <;> rfl
  by_cases h2 : (dictGet d "type").eqStr "move" = true
  · rw [eqStr_ne_of_eqStr _ _ _ (by decide : "move" ≠ "screenshot") h2]
    simp only [h1, h2, if_true, Bool.false_eq_true, if_false]
    split <;> rfl
  by_cases h3 : (dictGet d "type").eqStr "type_text" = true
  · rw [eqStr_ne_of_eqStr _ _ _ (by decide : "type_text" ≠ "screenshot") h3]
    simp only [h1, h2, h3, if_true, Bool.false_eq_true, if_false]
    rfl
  by_cases h4 : (dictGet d "type").eqStr "key" = true
  · rw [eqStr_ne_of_eqStr _ _ _ (by decide : "key" ≠ "screenshot") h4]
    simp only [h1, h2, h3, h4, if_true, Bool.false_eq_true, if_false]
    split <;> rfl
  by_cases h5 : (dictGet d "type").eqStr "screenshot" = true
  · simp only [h1, h2, h3, h4, h5, if_true, Bool.false_eq_true, if_false]
    rfl
  · simp only [h1, h2, h3, h4, h5, Bool.false_eq_true, if_false]
    rfl

/-- **C2.**  For every decode result: a frame decoding to an object of
type `"screenshot"` produces exactly one reply — the record
`{"type": "screenshot", "data": base64(bytes of the capture compressed
at JPEG quality 60)}` — and no other message (other command types,
undecodable frames, non-object decodes) ever produces a reply frame. -/
theorem C2_theorem (jpeg : Nat → List Nat) (msg : Option PyVal) :
    repliesOf (handleMessage jpeg msg).events =
      if isScreenshotFrame msg then [screenshotReply jpeg] else [] := by
  match msg with
  | Option.none => rfl
  | some v =>
    cases v with
    | dict d => exact repliesOf_dispatch jpeg d
    | none => rfl
    | bool b => rfl
    | int n => rfl
    | str s => rfl
    | list xs => rfl

/-! ## C3: idle monitor -/

/-- **C3.**  In every poll of the inactivity monitor: in `"temporary"`
(Ephemeral) mode the process exits exactly when strictly more than
7200 seconds elapsed since `last_activity`; in `"permanent"`
(Persistent) mode no sequence of polls ever exits, regardless of the
observed times. -/
theorem C3_theorem :
    (∀ now la : Int, monitorStep "temporary" now la = true ↔ now - la > 7200) ∧
    (∀ samples : List (Int × Int), monitorExits "permanent" samples = false) := by
  constructor
  · intro now la
    unfold monitorStep
    by_cases h : now - la > 7200 <;> simp [h]
  · intro samples
    unfold monitorExits
    rw [List.any_eq_false]
    intro p _
    have hp : monitorStep "permanent" p.1 p.2 = false := rfl
    simp [hp]

/-- **C3, witness.** -/
theorem C3_witness :
    monitorStep "temporary" 8000 0 = true ∧
    monitorExits "permanent" [(8000, 0), (1000000, 0)] = false :=
  ⟨(C3_theorem.1 8000 0).mpr (by decide),
   C3_theorem.2 [(8000, 0), (1000000, 0)]⟩

/-! ## C4: malformed frames -/

/-- **C4, counterexample.**  The claim says a frame that is not
decodable as structured data is discarded and the connection stays
open.  But only `json.JSONDecodeError` is caught: the message `"5"`
decodes successfully (to the integer 5, not structured data), and
`data.get("type")` on it raises an uncaught `AttributeError`
(`server.py:105`), which ends `handle_client` and closes the
connection — here a valid `click` frame queued after it is never
processed. -/
theorem C4_counterexample :
    PyVal.isDict (PyVal.int 5) = false ∧
    (handleDecoded (fun _ => []) (PyVal.int 5)).crash = true ∧
    runLoop (fun _ => [])
      [(3, some (PyVal.int 5)),
       (4, some (PyVal.dict
         [("type", PyVal.str "click"), ("x", PyVal.int 1), ("y", PyVal.int 2)]))] 0 =
      (3, []) :=
  ⟨rfl, rfl, rfl⟩

/-- **C4 (amended).**  A frame that fails JSON decoding is silently
skipped (no Input-Bridge call, no reply, `last_activity` untouched) and
the loop continues; a frame decoding to an object whose `type` field is
absent or unrecognized produces no Input-Bridge call and no reply, no
error is surfaced, and the loop continues with subsequent frames; but a
frame decoding to a non-object JSON value raises an uncaught error that
closes the connection, leaving the remaining frames unprocessed. -/
theorem C4_theorem (jpeg : Nat → List Nat) (t la : Nat)
    (rest : List (Nat × Option PyVal)) (d : List (String × PyVal)) (v : PyVal) :
    runLoop jpeg ((t, Option.none) :: rest) la = runLoop jpeg rest la ∧
    (isKnownType (dictGet d "type") = false →
      dispatchFrame jpeg d = [] ∧
      runLoop jpeg ((t, some (PyVal.dict d)) :: rest) la = runLoop jpeg rest t) ∧
    (v.isDict = false →
      handleDecoded jpeg v = ⟨[], true⟩ ∧
      runLoop jpeg ((t, some v) :: rest) la = (t, [])) := by
  refine ⟨rfl, fun hk => ?_, fun hv => ?_⟩
  · have hd : dispatchFrame jpeg d = [] := by
      unfold isKnownType at hk
      simp only [Bool.or_eq_false_iff] at hk
      obtain ⟨⟨⟨⟨h1, h2⟩, h3⟩, h4⟩, h5⟩ := hk
      unfold dispatchFrame
      simp only [h1, h2, h3, h4, h5, Bool.false_eq_true, if_false]
    refine ⟨hd, ?_⟩
    have h2 : runLoop jpeg ((t, some (PyVal.dict d)) :: rest) la =
        ((runLoop jpeg rest t).1, dispatchFrame jpeg d ++ (runLoop jpeg rest t).2) := rfl
    rw [h2, hd, List.nil_append]
  · have hc : handleDecoded jpeg v = ⟨[], true⟩ := by
      cases v <;> simp_all [PyVal.isDict, handleDecoded]
    refine ⟨hc, ?_⟩
    have h3 : runLoop jpeg ((t, some v) :: rest) la =
        (if (handleDecoded jpeg v).crash then (t, (handleDecoded jpeg v).events)
         else ((runLoop jpeg rest t).1,
               (handleDecoded jpeg v).events ++ (runLoop jpeg rest t).2)) := rfl
    rw [h3, hc]
    rfl

/-- **C4, witness.** -/
theorem C4_witness :
    runLoop (fun _ => []) [(7, Option.none)] 5 = runLoop (fun _ => []) [] 5 ∧
    dispatchFrame (fun _ => []) [("type", PyVal.str "bogus")] = [] ∧
    runLoop (fun _ => []) [(7, some (PyVal.dict [("type", PyVal.str "bogus")]))] 5 =
      runLoop (fun _ => []) [] 7 ∧
    handleDecoded (fun _ => []) (PyVal.str "oops") = ⟨[], true⟩ ∧
    runLoop (fun _ => []) [(7, some (PyVal.str "oops"))] 5 = (7, []) := by
  have h := C4_theorem (fun _ => []) 7 5 [] [("type", PyVal.str "bogus")] (PyVal.str "oops")
  exact ⟨h.1, (h.2.1 rfl).1, (h.2.1 rfl).2, (h.2.2 rfl).1, (h.2.2 rfl).2⟩

/-! ## C5: in-order dispatch scenario -/

/-- **C5.**  For the frame sequence
`{"type":"move","x":100,"y":200}`, `{"type":"click","x":100,"y":200}`,
`{"type":"screenshot"}` on one connection, the observable trace is
exactly `moveTo(100,200)`, `click(100,200)`, the display capture, and
then the single screenshot reply — strictly in receipt order, the
reply after the click. -/
theorem C5_theorem (jpeg : Nat → List Nat) :
    (runConn jpeg 0 0
      [(1, some (PyVal.dict
         [("type", PyVal.str "move"), ("x", PyVal.int 100), ("y", PyVal.int 200)])),
       (2, some (PyVal.dict
         [("type", PyVal.str "click"), ("x", PyVal.int 100), ("y", PyVal.int 200)])),
       (3, some (PyVal.dict [("type", PyVal.str "screenshot")]))]).2 =
      [Event.moveTo (PyVal.int 100) (PyVal.int 200),
       Event.click (PyVal.int 100) (PyVal.int 200),
       Event.captureDisplay 60,
       Event.sendReply (screenshotReply jpeg)] := rfl

/-! ## C6: mode store round-trip -/

/-- **C6, counterexample.**  The claim says a read or write failure is
swallowed and never propagates.  But both `load_mode` and `save_mode`
call `_get_config_path()` before their `try` blocks
(`server.py:43,55`), and its `os.makedirs` (`server.py:38`) can raise;
that exception propagates out of both functions to the caller. -/
theorem C6_counterexample :
    load_mode false FileState.absent = Except.error () ∧
    save_mode false true FileState.absent (PyVal.str "permanent") = Except.error () :=
  ⟨rfl, rfl⟩

/-- **C6 (amended).**  When the configuration directory can be created:
a successful `save_mode(m)` followed by `load_mode` yields `m` for
every value `m` (the store is a pure value, so this also holds across
a simulated restart); with no persisted record `load_mode` yields
`None` (Unset); a swallowed read failure degrades `load_mode` to
`None`; a swallowed write failure makes `save_mode` a no-op — every
exception inside the `try` of `load_mode`/`save_mode` is caught.  But
a directory-creation failure propagates as an error out of both
`load_mode` and `save_mode`. -/
theorem C6_theorem (fs : FileState) (m : PyVal) :
    (save_mode true true fs m).bind (load_mode true) = Except.ok m ∧
    load_mode true FileState.absent = Except.ok PyVal.none ∧
    load_mode true FileState.unreadable = Except.ok PyVal.none ∧
    save_mode true false fs m = Except.ok fs ∧
    load_mode false fs = Except.error () ∧
    save_mode false true fs m = Except.error () := by
  refine ⟨?_, rfl, rfl, rfl, ?_, rfl⟩
  · show Except.ok (dictGet [("mode", m)] "mode") = Except.ok m
    rfl
  · cases fs <;> rfl

/-! ## C7: the activity timestamp -/

theorem runLoop_fst (jpeg : Nat → List Nat) :
    ∀ (msgs : List (Nat × Option PyVal)) (c : Nat),
      (runLoop jpeg msgs c).1 = activitySpec c msgs := by
  intro msgs
  induction msgs with
  | nil => intro c; rfl
  | cons p rest ih =>
    intro c
    obtain ⟨t, msg⟩ := p
    cases msg with
    | none =>
      show (runLoop jpeg rest c).1 = activitySpec c ((t, Option.none) :: rest)
      rw [ih c]
      rfl
    | some v =>
      have h3 : runLoop jpeg ((t, some v) :: rest) c =
          (if (handleDecoded jpeg v).crash then (t, (handleDecoded jpeg v).events)
           else ((runLoop jpeg rest t).1,
                 (handleDecoded jpeg v).events ++ (runLoop jpeg rest t).2)) := rfl
      have hs : activitySpec c ((t, some v) :: rest) =
          (if v.isDict then activitySpec t rest else t) := rfl
      rw [h3, hs, handleDecoded_crash]
      cases hd : v.isDict <;> simp [ih t]

theorem activitySpec_cases (c : Nat) (msgs : List (Nat × Option PyVal)) :
    activitySpec c msgs = c ∨ ∃ p ∈ msgs, activitySpec c msgs = p.1 := by
  induction msgs generalizing c with
  | nil => exact Or.inl rfl
  | cons p rest ih =>
    obtain ⟨t, msg⟩ := p
    cases msg with
    | none =>
      rcases ih c with h | ⟨q, hq, he⟩
      · exact Or.inl h
      · exact Or.inr ⟨q, List.mem_cons_of_mem _ hq, he⟩
    | some v =>
      have hs : activitySpec c ((t, some v) :: rest) =
          (if v.isDict then activitySpec t rest else t) := rfl
      cases hd : v.isDict with
      | false =>
        rw [hs, hd]
        exact Or.inr ⟨(t, some v), List.mem_cons_self _ _, rfl⟩
      | true =>
        rw [hs, hd]
        simp only [if_true]
        rcases ih t with h | ⟨q, hq, he⟩
        · exact Or.inr ⟨(t, some v), List.mem_cons_self _ _, h⟩
        · exact Or.inr ⟨q, List.mem_cons_of_mem _ hq, he⟩

/-- **C7, counterexample.**  The claim says `last_activity` is updated
EXACTLY when a frame is successfully decoded and at no other point.
But `handle_client` also overwrites it with the current time as soon as
a connection is established (`server.py:97`): a connection at time 50
that carries no frames at all moves the timestamp from 10 to 50. -/
theorem C7_counterexample :
    (runConn (fun _ => []) 10 50 []).1 = 50 ∧ (runConn (fun _ => []) 10 50 []).1 ≠ 10 :=
  ⟨rfl, by decide⟩

/-- **C7 (amended).**  `last_activity` after a connection equals the
time of the most recent successfully decoded frame, or the
connection-establishment time when no frame was decoded — frames that
fail to decode never touch it (the prior value `la0` is discarded on
connect); consequently it never moves backward when the observed times
are at least the connection time. -/
theorem C7_theorem (jpeg : Nat → List Nat) (la0 c : Nat)
    (msgs : List (Nat × Option PyVal)) :
    (runConn jpeg la0 c msgs).1 = activitySpec c msgs ∧
    ((∀ p ∈ msgs, c ≤ p.1) → c ≤ (runConn jpeg la0 c msgs).1) := by
  refine ⟨runLoop_fst jpeg msgs c, fun h => ?_⟩
  rw [show (runConn jpeg la0 c msgs).1 = activitySpec c msgs from runLoop_fst jpeg msgs c]
  rcases activitySpec_cases c msgs with he | ⟨q, hq, he⟩
  · exact he.ge
  · exact he ▸ h q hq

/-- **C7, witness.** -/
theorem C7_witness :
    (runConn (fun _ => []) 0 5
        [(7, some (PyVal.dict [("type", PyVal.str "key")])), (9, Option.none)]).1 = 7 ∧
    5 ≤ (runConn (fun _ => []) 0 5
        [(7, some (PyVal.dict [("type", PyVal.str "key")])), (9, Option.none)]).1 := by
  have h := C7_theorem (fun _ => []) 0 5
    [(7, some (PyVal.dict [("type", PyVal.str "key")])), (9, Option.none)]
  exact ⟨h.1.trans rfl, h.2 (by decide)⟩

/-! ## C8: type_text -/

/-- **C8.**  For a decoded frame of type `"type_text"` the Input Bridge
receives exactly one text-injection call with exactly the frame's
`text` value, where an absent `text` field defaults to the empty
string. -/
theorem C8_theorem (jpeg : Nat → List Nat) (d : List (String × PyVal)) :
    (dictGet d "type" = PyVal.str "type_text" →
      dispatchFrame jpeg d = [Event.typewrite (dictGetD d "text" (PyVal.str ""))]) ∧
    (hasKey d "text" = false → dictGetD d "text" (PyVal.str "") = PyVal.str "") := by
  constructor
  · intro h
    unfold dispatchFrame
    rw [h]
    simp [PyVal.eqStr]
  · intro h
    unfold dictGetD
    unfold hasKey at h
    cases hk : lookupKey d "text" <;> simp_all

/-- **C8, witness**: `{"type":"type_text","text":"hello"}` injects
exactly `"hello"`, and a frame without `text` injects `""`. -/
theorem C8_witness :
    dispatchFrame (fun _ => [])
        [("type", PyVal.str "type_text"), ("text", PyVal.str "hello")] =
      [Event.typewrite (PyVal.str "hello")] ∧
    dispatchFrame (fun _ => []) [("type", PyVal.str "type_text")] =
      [Event.typewrite (PyVal.str "")] ∧
    dictGetD [("type", PyVal.str "type_text")] "text" (PyVal.str "") = PyVal.str "" :=
  ⟨(C8_theorem (fun _ => [])
      [("type", PyVal.str "type_text"), ("text", PyVal.str "hello")]).1 rfl,
   (C8_theorem (fun _ => []) [("type", PyVal.str "type_text")]).1 rfl,
   (C8_theorem (fun _ => []) [("type", PyVal.str "type_text")]).2 rfl⟩

/-! ## C10: falsy key values -/

/-- **C10.**  For a decoded frame of type `"key"`, a `key` value that is
falsy in Python's sense (`server.py:125` tests `if key:`) produces no
key-press call — and the empty string, `null`, `false`, `0`, `[]` and
`{}` are all falsy, while an absent `key` field reads back as `None`
and is handled identically. -/
theorem C10_theorem (jpeg : Nat → List Nat) (d : List (String × PyVal)) :
    (dictGet d "type" = PyVal.str "key" → (dictGet d "key").truthy = false →
      dispatchFrame jpeg d = []) ∧
    ((PyVal.str "").truthy = false ∧ PyVal.none.truthy = false ∧
     (PyVal.bool false).truthy = false ∧ (PyVal.int 0).truthy = false ∧
     (PyVal.list []).truthy = false ∧ (PyVal.dict []).truthy = false) ∧
    (hasKey d "key" = false → dictGet d "key" = PyVal.none) := by
  refine ⟨?_, by decide, ?_⟩
  · intro h hk
    unfold dispatchFrame
    rw [h]
    simp [PyVal.eqStr, hk]
  · intro h
    unfold dictGet
    unfold hasKey at h
    cases hk : lookupKey d "key" <;> simp_all

/-- **C10, witness**: a present-but-empty `key` produces no call, and
the same for an absent one. -/
theorem C10_witness :
    dispatchFrame (fun _ => [])
      [("type", PyVal.str "key"), ("key", PyVal.str "")] = [] ∧
    dispatchFrame (fun _ => []) [("type", PyVal.str "key")] = [] :=
  ⟨(C10_theorem (fun _ => [])
      [("type", PyVal.str "key"), ("key", PyVal.str "")]).1 rfl rfl,
   (C10_theorem (fun _ => []) [("type", PyVal.str "key")]).1 rfl rfl⟩

end VisualEyes
